import Mathlib

/-!
Shallow embedding of the course-materials RAG backend:
`backend/search_tools.py` (CourseSearchTool, CourseOutlineTool, ToolManager)
and `backend/ai_generator.py` (AIGenerator.generate_response and helpers).

Python conventions carried over explicitly:
* `Option` models optional values (`None` ↦ `none`); Python truthiness of an
  optional string (falsy when `None` or `""`) and of an optional integer
  (falsy when `None` or `0`) is modelled by `optStrTruthy` / `optIntTruthy`.
* A Python `dict` used as an insertion-ordered map is a `List (key × value)`;
  assignment `d[k] = v` is `dictInsert` (replace in place, else append).
* Raising is modelled with `Except`; the distinguished runtime errors hit by
  `response.content[0].text` are `PyErr.indexError` (empty list subscript)
  and `PyErr.attributeError` (a tool-use block has no `text` attribute).
-/

/-- Python truthiness of an optional string: falsy when absent or empty. -/
def optStrTruthy : Option String → Bool
  | some s => s ≠ ""
  | none => false

/-- Python truthiness of an optional integer: falsy when absent or zero. -/
def optIntTruthy : Option Int → Bool
  | some n => n ≠ 0
  | none => false

/-- Python dict assignment `d[k] = v` on an insertion-ordered map (keys are
unique): replaces the value in place when the key exists, otherwise appends
the new pair at the end. -/
def dictInsert {α : Type} : List (String × α) → String → α → List (String × α)
  | [], k, v => [(k, v)]
  | (k', v') :: rest, k, v =>
    if k' = k then (k, v) :: rest else (k', v') :: dictInsert rest k v

/-- Python dict lookup `d.get(k)`. -/
def dictGet {α : Type} : List (String × α) → String → Option α
  | [], _ => none
  | (k', v) :: rest, k => if k' = k then some v else dictGet rest k

/-- A source citation tracked by a tool: `{"text": ..., "link": ...}`
(`search_tools.py`, built at lines 118 and 215). -/
structure Source where
  text : String
  link : Option String
deriving DecidableEq, Repr

/-- The part of an Anthropic tool definition dict that `ToolManager` reads:
`tool_def.get("name")` (`search_tools.py:230`).  `name = none` models a
definition dict without a `"name"` key. -/
structure ToolDef where
  name : Option String
deriving DecidableEq, Repr

/-- The view of a registered tool that `ToolManager` uses: its definition
dict and its `last_sources` attribute.  `last_sources = none` models a tool
object without that attribute (`hasattr` is false, `search_tools.py:250`). -/
structure Tool where
  get_tool_definition : ToolDef
  last_sources : Option (List Source)
deriving DecidableEq, Repr

/-- `ToolManager.__init__`: `self.tools = {}` (`search_tools.py:224-225`). -/
structure ToolManager where
  tools : List (String × Tool)
deriving DecidableEq, Repr

/-- `ToolManager.register_tool` (`search_tools.py:227-233`): reads the
declared name, raises `ValueError` when it is missing or empty (Python
`if not tool_name`), otherwise stores the tool by name via dict assignment
(which silently replaces an existing entry with the same name). -/
def ToolManager.register_tool (tm : ToolManager) (tool : Tool) :
    Except String ToolManager :=
  match tool.get_tool_definition.name with
  | none => .error "Tool must have a \x27name\x27 in its definition"
  | some tool_name =>
    if tool_name = "" then
      .error "Tool must have a \x27name\x27 in its definition"
    else
      .ok { tools := dictInsert tm.tools tool_name tool }

/-- The `for tool in self.tools.values()` loop of
`ToolManager.get_last_sources` (`search_tools.py:249-252`): return the first
tool whose `last_sources` attribute exists and is nonempty. -/
def getLastSourcesLoop : List (String × Tool) → List Source
  | [] => []
  | (_, t) :: rest =>
    match t.last_sources with
    | some (s :: ss) => s :: ss
    | _ => getLastSourcesLoop rest

/-- `ToolManager.get_last_sources` (`search_tools.py:246-252`). -/
def ToolManager.get_last_sources (tm : ToolManager) : List Source :=
  getLastSourcesLoop tm.tools

/-- The citation batch a tool contributes to the registry scan: empty when
the `last_sources` attribute is absent. -/
def Tool.batch (t : Tool) : List Source :=
  t.last_sources.getD []

/-- One metadata dict of `SearchResults.metadata`: only the keys
`"course_title"` and `"lesson_number"` are read (`search_tools.py:98-99`).
`none` models an absent key. -/
structure ChunkMeta where
  course_title : Option String
  lesson_number : Option Int
deriving DecidableEq, Repr

/-- Modelled from the spec: `vector_store.py` is not under `src/`.  §3
SearchOutcome is `{passages, errorMessage?}`; the repository tests construct
`SearchResults(documents=…, metadata=…, distances=…, error=…)`.  The
similarity distances are never read by the tool layer and are omitted. -/
structure SearchResults where
  documents : List String
  metadata : List ChunkMeta
  error : Option String
deriving DecidableEq, Repr

/-- Modelled from the spec: `SearchResults.is_empty` is not under `src/`.
§3: "empty passages with no error is the valid no-match case", and the
caller at `search_tools.py:81` treats `is_empty()` as "zero passages". -/
def SearchResults.is_empty (r : SearchResults) : Bool :=
  r.documents = []

/-- One lesson dict of a course-metadata `"lessons"` list: keys
`"lesson_number"` and `"lesson_title"` (`search_tools.py:208-209`); `none`
models an absent key. -/
structure LessonMeta where
  lesson_number : Option Int
  lesson_title : Option String
deriving DecidableEq, Repr

/-- One course-metadata dict as read by
`CourseOutlineTool._format_course_outline` (`search_tools.py:187-190`):
keys `"title"`, `"instructor"`, `"course_link"`, `"lessons"`. -/
structure CourseMetadata where
  title : Option String
  instructor : Option String
  course_link : Option String
  lessons : List LessonMeta
deriving DecidableEq, Repr

/-- Modelled from the spec: the `VectorStore` collaborator is not under
`src/`; its interface is §6's RetrievalIndex (search, lesson links, fuzzy
course-title resolution, course metadata listing). -/
structure VectorStore where
  search : String → Option String → Option Int → SearchResults
  get_lesson_link : String → Int → Option String
  resolve_course_name : String → Option String
  get_all_courses_metadata : List CourseMetadata

/-- `CourseSearchTool.__init__` (`search_tools.py:24-26`): holds the store
and `self.last_sources = []`. -/
structure CourseSearchTool where
  store : VectorStore
  last_sources : List Source

/-- The filter suffix built by `CourseSearchTool.execute` for the empty
outcome (`search_tools.py:82-86`): Python `if course_name:` and
`if lesson_number:` are truthiness tests, so an empty course name and a zero
lesson number contribute nothing. -/
def filterInfo (course_name : Option String) (lesson_number : Option Int) :
    String :=
  (if optStrTruthy course_name then
    " in course \x27" ++ course_name.getD "" ++ "\x27"
  else "") ++
  (if optIntTruthy lesson_number then
    " in lesson " ++ toString (lesson_number.getD 0)
  else "")

/-- The per-passage body of the `for doc, meta in zip(...)` loop of
`CourseSearchTool._format_results` (`search_tools.py:97-121`): returns the
formatted block and the source citation recorded for this passage. -/
def formatOnePassage (store : VectorStore) (doc : String) (meta : ChunkMeta) :
    String × Source :=
  let course_title := meta.course_title.getD "unknown"
  let header :=
    "[" ++ course_title ++
      (match meta.lesson_number with
       | some n => " - Lesson " ++ toString n
       | none => "") ++ "]"
  let source_text :=
    course_title ++
      (match meta.lesson_number with
       | some n => " - Lesson " ++ toString n
       | none => "")
  let lesson_link :=
    match meta.lesson_number with
    | some n => if course_title ≠ "unknown" then store.get_lesson_link course_title n else none
    | none => none
  (header ++ "\n" ++ doc, { text := source_text, link := lesson_link })

/-- `CourseSearchTool._format_results` (`search_tools.py:92-126`): formats
every passage, stores the collected sources in `last_sources` (overwrite),
and joins the formatted blocks with blank lines. -/
def CourseSearchTool.format_results (t : CourseSearchTool)
    (results : SearchResults) : CourseSearchTool × String :=
  let pairs := (results.documents.zip results.metadata).map
    (fun p => formatOnePassage t.store p.1 p.2)
  let formatted := pairs.map (fun p => p.1)
  let sources := pairs.map (fun p => p.2)
  ({ t with last_sources := sources }, String.intercalate "\n\n" formatted)

/-- `CourseSearchTool.execute` (`search_tools.py:53-90`): search the store,
return the error verbatim when present (Python truthiness of
`results.error`), a "No relevant content found…" message naming the truthy
filters when the outcome is empty, and the formatted results otherwise. -/
def CourseSearchTool.execute (t : CourseSearchTool) (query : String)
    (course_name : Option String := none) (lesson_number : Option Int := none) :
    CourseSearchTool × String :=
  let results := t.store.search query course_name lesson_number
  if optStrTruthy results.error then
    (t, results.error.getD "")
  else if results.is_empty then
    (t, "No relevant content found" ++ filterInfo course_name lesson_number ++ ".")
  else
    t.format_results results

/-- The registry's view of a `CourseSearchTool` instance: its declared name
(`search_tools.py:31`) and its `last_sources` attribute. -/
def CourseSearchTool.asRegistered (t : CourseSearchTool) : Tool :=
  { get_tool_definition := { name := some "search_course_content" },
    last_sources := some t.last_sources }

/-- `CourseOutlineTool.__init__` (`search_tools.py:132-134`). -/
structure CourseOutlineTool where
  store : VectorStore
  last_sources : List Source

/-- `CourseOutlineTool._format_course_outline` (`search_tools.py:185-218`):
renders title, instructor, optional link, lesson count and one line per
lesson *in the order the lessons appear in the metadata*; records exactly
one source `{text: title, link: course_link}` as `last_sources`. -/
def CourseOutlineTool.format_course_outline (t : CourseOutlineTool)
    (course_metadata : CourseMetadata) : CourseOutlineTool × String :=
  let title := course_metadata.title.getD "Unknown Course"
  let instructor := course_metadata.instructor.getD "Unknown Instructor"
  let course_link := course_metadata.course_link
  let lessons := course_metadata.lessons
  let outline_parts :=
    ["**Course Title:** " ++ title, "**Course Instructor:** " ++ instructor] ++
    (if optStrTruthy course_link then
      ["**Course Link:** " ++ course_link.getD ""]
    else []) ++
    (if lessons ≠ [] then
      ["**Total Lessons:** " ++ toString lessons.length, "\n**Course Outline:**"] ++
      lessons.map (fun lesson =>
        "Lesson " ++ (match lesson.lesson_number with
                      | some n => toString n
                      | none => "N/A") ++
        ": " ++ lesson.lesson_title.getD "Untitled Lesson")
    else ["**No lessons found for this course**"])
  ({ t with last_sources := [{ text := title, link := course_link }] },
   String.intercalate "\n" outline_parts)

/-- `CourseOutlineTool.execute` (`search_tools.py:153-183`): resolve the
fuzzy course title; on failure return a "no course found" message; then scan
`get_all_courses_metadata` for the first dict whose `"title"` equals the
resolved title; on failure return a "metadata not found" message; otherwise
format the outline. -/
def CourseOutlineTool.execute (t : CourseOutlineTool) (course_title : String) :
    CourseOutlineTool × String :=
  let resolved := t.store.resolve_course_name course_title
  if ¬ optStrTruthy resolved then
    (t, "No course found matching \x27" ++ course_title ++ "\x27")
  else
    let resolved_course_title := resolved.getD ""
    match t.store.get_all_courses_metadata.find?
        (fun m => m.title = some resolved_course_title) with
    | none =>
      (t, "Course metadata not found for \x27" ++ resolved_course_title ++ "\x27")
    | some course_metadata =>
      t.format_course_outline course_metadata

/-! ## `backend/ai_generator.py` -/

/-- The keyword arguments of one tool invocation (`content_block.input`,
passed through opaquely as `**content_block.input` at
`ai_generator.py:169-171`). -/
abbrev ToolArgs := List (String × String)

/-- A content block of a model response: either a text block (has a `text`
attribute) or a tool-use block (has `id`, `name`, `input`; no `text`). -/
inductive ContentBlock where
  | text (s : String)
  | toolUse (id : String) (name : String) (input : ToolArgs)
deriving DecidableEq, Repr

/-- The runtime errors the orchestrator can raise through unguarded
attribute and subscript access. -/
inductive PyErr where
  | indexError
  | attributeError
deriving DecidableEq, Repr

/-- Python attribute access `block.text`: raises `AttributeError` on a
tool-use block. -/
def ContentBlock.textAttr : ContentBlock → Except PyErr String
  | .text s => .ok s
  | .toolUse _ _ _ => .error .attributeError

/-- Python `response.content[0].text`: `IndexError` on an empty content
list, `AttributeError` when the first block carries no text
(`ai_generator.py:85`, `:90`, `:106`). -/
def firstContentText : List ContentBlock → Except PyErr String
  | [] => .error .indexError
  | b :: _ => b.textAttr

/-- A model response as the orchestrator reads it: `stop_reason` and
`content` (`ai_generator.py:83-106`). -/
structure ModelResponse where
  stop_reason : String
  content : List ContentBlock
deriving DecidableEq, Repr

/-- One entry of the `tool_results` list built at `ai_generator.py:173-179`. -/
structure ToolResultRecord where
  tool_use_id : String
  content : String
deriving DecidableEq, Repr

/-- Message content inside the orchestrator's message list: the plain user
query, an assistant turn holding the response's content blocks, or a user
turn holding aggregated tool results. -/
inductive MessageContent where
  | text (s : String)
  | blocks (bs : List ContentBlock)
  | toolResults (rs : List ToolResultRecord)
deriving DecidableEq, Repr

/-- One message dict `{"role": ..., "content": ...}`. -/
structure Message where
  role : String
  content : MessageContent
deriving DecidableEq, Repr

/-- `tool_manager.execute_tool(name, **input)` as the orchestrator sees it:
a call that either returns the tool's result string or raises, the error
carrying the Python `str(e)` of the raised exception. -/
abbrev Dispatcher := String → ToolArgs → Except String String

/-- `AIGenerator.SYSTEM_PROMPT` (`ai_generator.py:10-35`), abbreviated to
its opening line: no claim depends on the prompt text, only on how
`_build_system_content` combines it with the history. -/
def SYSTEM_PROMPT : String :=
  " You are an AI assistant specialized in course materials and educational content with access to comprehensive tools for course information."

/-- `AIGenerator._build_system_content` (`ai_generator.py:108-114`):
appends the history under a fixed header when it is truthy. -/
def build_system_content (conversation_history : Option String) : String :=
  if optStrTruthy conversation_history then
    SYSTEM_PROMPT ++ "\n\nPrevious conversation:\n" ++ conversation_history.getD ""
  else
    SYSTEM_PROMPT

/-- The `if tools:` test of `_make_api_call` (`ai_generator.py:137`): tool
schemas are attached to the request exactly when the `tools` argument is
truthy (not `None` and not the empty list). -/
def toolsTruthy {α : Type} : Option (List α) → Bool
  | some ts => !ts.isEmpty
  | none => false

/-- The `for content_block in response.content:` loop of
`_execute_tools_and_update_messages` (`ai_generator.py:165-182`): dispatch
every tool-use block in order; on the first dispatch that raises, stop and
raise `Exception("Tool '<name>' failed: <message>")`.  Returns the ordered
log of dispatch attempts together with the outcome. -/
def toolLoop (dispatch : Dispatcher) :
    List ContentBlock → List (String × ToolArgs) × Except String (List ToolResultRecord)
  | [] => ([], .ok [])
  | .text _ :: rest => toolLoop dispatch rest
  | .toolUse id name input :: rest =>
    match dispatch name input with
    | .ok tool_result =>
      let (log, res) := toolLoop dispatch rest
      ((name, input) :: log,
       res.map (fun rs => { tool_use_id := id, content := tool_result } :: rs))
    | .error msg =>
      ([(name, input)],
       .error ("Tool \x27" ++ name ++ "\x27 failed: " ++ msg))

/-- `AIGenerator._execute_tools_and_update_messages`
(`ai_generator.py:143-188`): append the assistant's tool-use turn, run every
requested invocation in order, and on full success append one aggregated
tool-result turn (only when at least one result was produced).  The dispatch
log is returned alongside for observation. -/
def execute_tools_and_update_messages (dispatch : Dispatcher)
    (response : ModelResponse) (messages : List Message) :
    List (String × ToolArgs) × Except String (List Message) :=
  let messages := messages ++ [{ role := "assistant", content := .blocks response.content }]
  let (log, res) := toolLoop dispatch response.content
  match res with
  | .error msg => (log, .error msg)
  | .ok tool_results =>
    (log, .ok (if tool_results ≠ [] then
      messages ++ [{ role := "user", content := .toolResults tool_results }]
    else messages))

instance {ε α : Type} [DecidableEq ε] [DecidableEq α] :
    DecidableEq (Except ε α) := fun a b =>
  match a, b with
  | .ok x, .ok y =>
    match decEq x y with
    | .isTrue h => .isTrue (h ▸ rfl)
    | .isFalse h => .isFalse (fun he => h (Except.ok.inj he))
  | .ok _, .error _ => .isFalse (fun he => Except.noConfusion he)
  | .error _, .ok _ => .isFalse (fun he => Except.noConfusion he)
  | .error x, .error y =>
    match decEq x y with
    | .isTrue h => .isTrue (h ▸ rfl)
    | .isFalse h => .isFalse (fun he => h (Except.error.inj he))

/-- The observable outcome of one `generate_response` run: the returned
string (or the uncaught runtime error), the number of model calls made, the
per-call record of whether tool schemas were attached, and the ordered log
of tool dispatch attempts. -/
structure GenTrace where
  answer : Except PyErr String
  callsMade : Nat
  callToolsAttached : List Bool
  dispatchLog : List (String × ToolArgs)
deriving DecidableEq, Repr

/-- The `for round_num in range(1, max_rounds + 1)` loop of
`generate_response` together with the final tool-less call
(`ai_generator.py:78-106`).  `calls i` is the model's response to the
`i`-th API call (0-indexed); `fuel` is the number of loop iterations still
allowed.  Each branch mirrors the source: a non-`tool_use` stop reason
returns `response.content[0].text`; `tool_use` without a tool manager
returns `response.content[0].text` when the content list is truthy and the
fixed `"No response available"` otherwise; a dispatch failure is caught and
converted into the apology string; a fully successful round recurses; fuel
exhaustion is the final `_make_api_call(..., tools=None)`. -/
def generateLoop (calls : Nat → ModelResponse) (tt : Bool)
    (tool_manager : Option Dispatcher) (messages : List Message)
    (callIdx : Nat) : Nat → GenTrace
  | 0 =>
    let response := calls callIdx
    { answer := firstContentText response.content,
      callsMade := 1, callToolsAttached := [false], dispatchLog := [] }
  | fuel + 1 =>
    let response := calls callIdx
    if response.stop_reason ≠ "tool_use" then
      { answer := firstContentText response.content,
        callsMade := 1, callToolsAttached := [tt], dispatchLog := [] }
    else
      match tool_manager with
      | none =>
        { answer :=
            match response.content with
            | [] => .ok "No response available"
            | b :: _ => b.textAttr,
          callsMade := 1, callToolsAttached := [tt], dispatchLog := [] }
      | some dispatch =>
        match execute_tools_and_update_messages dispatch response messages with
        | (log, .error msg) =>
          { answer := .ok ("I encountered an error while searching: " ++ msg),
            callsMade := 1, callToolsAttached := [tt], dispatchLog := log }
        | (log, .ok newMessages) =>
          let rest := generateLoop calls tt tool_manager newMessages (callIdx + 1) fuel
          { answer := rest.answer,
            callsMade := 1 + rest.callsMade,
            callToolsAttached := tt :: rest.callToolsAttached,
            dispatchLog := log ++ rest.dispatchLog }

/-- `AIGenerator.generate_response` (`ai_generator.py:44-106`), instrumented
with the call/dispatch trace.  `max_rounds` is a Python `int`; the loop body
runs `max 0 max_rounds` times (empty `range` when `max_rounds ≤ 0`). -/
def generate_response (calls : Nat → ModelResponse) (query : String)
    (conversation_history : Option String := none)
    (tools : Option (List ToolDef) := none)
    (tool_manager : Option Dispatcher := none)
    (max_rounds : Int := 2) : GenTrace :=
  generateLoop calls (toolsTruthy tools) tool_manager
    [{ role := "user", content := .text query }] 0 (max 0 max_rounds).toNat

/-- Whether one content block dispatches successfully: text blocks are
skipped by the tool loop, a tool-use block succeeds when the dispatcher
returns instead of raising. -/
def blockDispatchOk (dispatch : Dispatcher) : ContentBlock → Bool
  | .text _ => true
  | .toolUse _ name input =>
    match dispatch name input with
    | .ok _ => true
    | .error _ => false

/-- The dispatch attempts a batch of content blocks gives rise to when every
dispatch succeeds: one `(name, input)` pair per tool-use block, in order. -/
def toolUseLog : List ContentBlock → List (String × ToolArgs)
  | [] => []
  | .text _ :: rest => toolUseLog rest
  | .toolUse _ name input :: rest => (name, input) :: toolUseLog rest

/-- The dispatch log accumulated by `fuel` fully successful rounds starting
at call index `callIdx`. -/
def roundsLog (calls : Nat → ModelResponse) : Nat → Nat → List (String × ToolArgs)
  | _, 0 => []
  | callIdx, fuel + 1 =>
    toolUseLog (calls callIdx).content ++ roundsLog calls (callIdx + 1) fuel

/-! ## Concrete collaborators for the scenario claims -/

/-- A store for the citation-overwrite scenario: query `"q1"` matches two
passages, every other query matches none, no errors. -/
def c3_store : VectorStore :=
  { search := fun q _ _ =>
      if q = "q1" then
        { documents := ["d1", "d2"],
          metadata := [{ course_title := some "CourseA", lesson_number := some 1 },
                       { course_title := some "CourseA", lesson_number := some 2 }],
          error := none }
      else
        { documents := [], metadata := [], error := none },
    get_lesson_link := fun _ _ => none,
    resolve_course_name := fun _ => none,
    get_all_courses_metadata := [] }

/-- A store for the empty-outcome scenarios: every search matches nothing,
without error. -/
def c7_store : VectorStore :=
  { search := fun _ _ _ => { documents := [], metadata := [], error := none },
    get_lesson_link := fun _ _ => none,
    resolve_course_name := fun _ => none,
    get_all_courses_metadata := [] }

/-- Insertion step for sorting lessons by ascending lesson number. -/
def insertLessonAsc (l : LessonMeta) : List LessonMeta → List LessonMeta
  | [] => [l]
  | x :: xs =>
    if l.lesson_number.getD 0 ≤ x.lesson_number.getD 0 then l :: x :: xs
    else x :: insertLessonAsc l xs

/-- Insertion sort of a lesson list by ascending lesson number. -/
def sortLessonsAsc : List LessonMeta → List LessonMeta
  | [] => []
  | x :: xs => insertLessonAsc x (sortLessonsAsc xs)

/-- The renderer the spec's words describe (§4.3 step 3: "one line per
lesson … in ascending lesson-number order"): identical to the
source-derived `CourseOutlineTool.format_course_outline` except that the
lessons are first sorted into ascending lesson-number order.  This
definition follows the spec, not the source, and exists only to be compared
with the source-derived one. -/
def formatCourseOutlineSpecAscending (t : CourseOutlineTool)
    (course_metadata : CourseMetadata) : CourseOutlineTool × String :=
  t.format_course_outline
    { course_metadata with lessons := sortLessonsAsc course_metadata.lessons }

/-! ## Shared lemmas -/

theorem dictGet_dictInsert_self {α : Type} (d : List (String × α)) (k : String)
    (v : α) : dictGet (dictInsert d k v) k = some v := by
  induction d with
  | nil => simp [dictInsert, dictGet]
  | cons p rest ih =>
    by_cases h : p.1 = k
    · simp [dictInsert, dictGet, h]
    · simpa [dictInsert, dictGet, h] using ih

theorem dictGet_dictInsert_other {α : Type} (d : List (String × α))
    (k k' : String) (v : α) (h : k' ≠ k) :
    dictGet (dictInsert d k v) k' = dictGet d k' := by
  induction d with
  | nil => simp [dictInsert, dictGet, Ne.symm h]
  | cons p rest ih =>
    obtain ⟨pk, pv⟩ := p
    by_cases hp : pk = k
    · subst hp
      simp [dictInsert, dictGet, Ne.symm h]
    · simp [dictInsert, dictGet, hp, ih]

/-- When every batch is empty the registry scan returns `[]`. -/
theorem getLastSourcesLoop_all_empty (l : List (String × Tool))
    (h : ∀ p ∈ l, p.2.batch = []) : getLastSourcesLoop l = [] := by
  induction l with
  | nil => rfl
  | cons p rest ih =>
    obtain ⟨k, t⟩ := p
    have hbatch : Tool.batch (k, t).2 = [] := h (k, t) (by simp)
    match ht : t.last_sources with
    | some (s :: ss) => simp [Tool.batch, ht] at hbatch
    | some [] =>
      rw [show getLastSourcesLoop ((k, t) :: rest) = getLastSourcesLoop rest from
        by simp [getLastSourcesLoop, ht]]
      exact ih fun q hq => h q (by simp [hq])
    | none =>
      rw [show getLastSourcesLoop ((k, t) :: rest) = getLastSourcesLoop rest from
        by simp [getLastSourcesLoop, ht]]
      exact ih fun q hq => h q (by simp [hq])

/-- When the list decomposes into tools with empty batches followed by a
tool with a nonempty batch, the registry scan returns that tool's batch. -/
theorem getLastSourcesLoop_first_nonempty (pre : List (String × Tool)) :
    ∀ (p : String × Tool) (post : List (String × Tool)),
    (∀ q ∈ pre, q.2.batch = []) → p.2.batch ≠ [] →
    getLastSourcesLoop (pre ++ p :: post) = p.2.batch := by
  induction pre with
  | nil =>
    intro p post _ hne
    obtain ⟨k, t⟩ := p
    match ht : t.last_sources with
    | some (s :: ss) => simp [getLastSourcesLoop, ht, Tool.batch]
    | some [] => simp [Tool.batch, ht] at hne
    | none => simp [Tool.batch, ht] at hne
  | cons q rest ih =>
    intro p post hpre hne
    obtain ⟨k, t⟩ := q
    have hbatch : Tool.batch (k, t).2 = [] := hpre (k, t) (by simp)
    match ht : t.last_sources with
    | some (s :: ss) => simp [Tool.batch, ht] at hbatch
    | some [] =>
      rw [List.cons_append,
        show getLastSourcesLoop ((k, t) :: (rest ++ p :: post))
          = getLastSourcesLoop (rest ++ p :: post) from by simp [getLastSourcesLoop, ht]]
      exact ih p post (fun r hr => hpre r (by simp [hr])) hne
    | none =>
      rw [List.cons_append,
        show getLastSourcesLoop ((k, t) :: (rest ++ p :: post))
          = getLastSourcesLoop (rest ++ p :: post) from by simp [getLastSourcesLoop, ht]]
      exact ih p post (fun r hr => hpre r (by simp [hr])) hne

/-- When every block of a batch dispatches successfully, the tool loop logs
exactly the batch's tool-use pairs in order and returns some result list. -/
theorem toolLoop_ok (dispatch : Dispatcher) (blocks : List ContentBlock)
    (h : ∀ b ∈ blocks, blockDispatchOk dispatch b) :
    ∃ rs, toolLoop dispatch blocks = (toolUseLog blocks, .ok rs) := by
  induction blocks with
  | nil => exact ⟨[], rfl⟩
  | cons b rest ih =>
    obtain ⟨rs, hrs⟩ := ih fun x hx => h x (by simp [hx])
    cases b with
    | text s =>
      exact ⟨rs, by simpa [toolLoop, toolUseLog] using hrs⟩
    | toolUse id name input =>
      have hb := h (.toolUse id name input) (by simp)
      simp only [blockDispatchOk] at hb
      match hd : dispatch name input with
      | .ok r =>
        refine ⟨{ tool_use_id := id, content := r } :: rs, ?_⟩
        simp [toolLoop, toolUseLog, hd, hrs, Except.map]
      | .error m => rw [hd] at hb; simp at hb

/-- When the batch decomposes as successful blocks, then a tool-use block
whose dispatch raises, the tool loop stops at the failing block: it logs the
successful pairs plus the failing one and raises the wrapped message. -/
theorem toolLoop_fail (dispatch : Dispatcher) (pre post : List ContentBlock)
    (id nm : String) (inp : ToolArgs) (emsg : String)
    (hpre : ∀ b ∈ pre, blockDispatchOk dispatch b)
    (hfail : dispatch nm inp = .error emsg) :
    toolLoop dispatch (pre ++ .toolUse id nm inp :: post)
      = (toolUseLog pre ++ [(nm, inp)],
         .error ("Tool \x27" ++ nm ++ "\x27 failed: " ++ emsg)) := by
  induction pre with
  | nil => simp [toolLoop, toolUseLog, hfail]
  | cons b rest ih =>
    have hrest := ih fun x hx => hpre x (by simp [hx])
    cases b with
    | text s => simpa [toolLoop, toolUseLog] using hrest
    | toolUse bid bname binput =>
      have hb := hpre (.toolUse bid bname binput) (by simp)
      simp only [blockDispatchOk] at hb
      match hd : dispatch bname binput with
      | .ok r => simp [toolLoop, toolUseLog, hd, hrest, Except.map]
      | .error m => rw [hd] at hb; simp at hb

/-- A fully successful round through `_execute_tools_and_update_messages`:
full log, no exception. -/
theorem execute_tools_ok (dispatch : Dispatcher) (response : ModelResponse)
    (messages : List Message)
    (h : ∀ b ∈ response.content, blockDispatchOk dispatch b) :
    ∃ newMessages, execute_tools_and_update_messages dispatch response messages
      = (toolUseLog response.content, .ok newMessages) := by
  obtain ⟨rs, hrs⟩ := toolLoop_ok dispatch response.content h
  by_cases h0 : rs = []
  · refine ⟨messages ++ [{ role := "assistant", content := .blocks response.content }], ?_⟩
    simp [execute_tools_and_update_messages, hrs, h0]
  · refine ⟨messages ++ [{ role := "assistant", content := .blocks response.content }]
      ++ [{ role := "user", content := .toolResults rs }], ?_⟩
    simp [execute_tools_and_update_messages, hrs, h0]

/-- A failing round through `_execute_tools_and_update_messages`: the log
stops at the failing invocation and the wrapped exception propagates. -/
theorem execute_tools_fail (dispatch : Dispatcher) (response : ModelResponse)
    (messages : List Message) (pre post : List ContentBlock)
    (id nm : String) (inp : ToolArgs) (emsg : String)
    (hdecomp : response.content = pre ++ .toolUse id nm inp :: post)
    (hpre : ∀ b ∈ pre, blockDispatchOk dispatch b)
    (hfail : dispatch nm inp = .error emsg) :
    execute_tools_and_update_messages dispatch response messages
      = (toolUseLog pre ++ [(nm, inp)],
         .error ("Tool \x27" ++ nm ++ "\x27 failed: " ++ emsg)) := by
  simp [execute_tools_and_update_messages, hdecomp,
    toolLoop_fail dispatch pre post id nm inp emsg hpre hfail]

/-- `fuel` successive rounds in which the model requests tools and every
dispatch succeeds, followed by the forced final tool-less call: `fuel + 1`
calls in total, tool schemas attached on every call but the last, the final
call's first text returned, and the dispatch log of all rounds in order. -/
theorem generateLoop_rounds_ok (calls : Nat → ModelResponse) (tt : Bool)
    (dispatch : Dispatcher) (fuel : Nat) :
    ∀ callIdx messages,
    (∀ j < fuel, (calls (callIdx + j)).stop_reason = "tool_use" ∧
      ∀ b ∈ (calls (callIdx + j)).content, blockDispatchOk dispatch b) →
    generateLoop calls tt (some dispatch) messages callIdx fuel
      = { answer := firstContentText (calls (callIdx + fuel)).content,
          callsMade := fuel + 1,
          callToolsAttached := List.replicate fuel tt ++ [false],
          dispatchLog := roundsLog calls callIdx fuel } := by
  induction fuel with
  | zero => intro callIdx messages _; simp [generateLoop, roundsLog]
  | succ fuel ih =>
    intro callIdx messages h
    obtain ⟨hstop, hok⟩ := h 0 (Nat.succ_pos fuel)
    rw [Nat.add_zero] at hstop hok
    obtain ⟨newMessages, hexec⟩ :=
      execute_tools_ok dispatch (calls callIdx) messages hok
    have hrest := ih (callIdx + 1) newMessages
      (fun j hj => by
        have h' := h (j + 1) (Nat.succ_lt_succ hj)
        have e : callIdx + (j + 1) = callIdx + 1 + j := by omega
        rwa [e] at h')
    have eidx : callIdx + 1 + fuel = callIdx + (fuel + 1) := by omega
    simp only [generateLoop, hstop, hexec, hrest, ne_eq, not_true_eq_false,
      if_false, eidx]
    simp [GenTrace.mk.injEq, List.replicate_succ, roundsLog, Nat.add_comm]

/-- `m` fully successful rounds followed by a round whose batch contains a
failing dispatch, all within budget (`m < fuel`): `m + 1` calls in total
(all with tool schemas attached when supplied), the apology string with the
wrapped exception message returned, and a dispatch log that stops at the
failing invocation — nothing after it is dispatched. -/
theorem generateLoop_fail (calls : Nat → ModelResponse) (tt : Bool)
    (dispatch : Dispatcher) (m : Nat) :
    ∀ callIdx messages fuel, m < fuel →
    (∀ j < m, (calls (callIdx + j)).stop_reason = "tool_use" ∧
      ∀ b ∈ (calls (callIdx + j)).content, blockDispatchOk dispatch b) →
    ∀ pre post id nm inp emsg,
    (calls (callIdx + m)).stop_reason = "tool_use" →
    (calls (callIdx + m)).content = pre ++ .toolUse id nm inp :: post →
    (∀ b ∈ pre, blockDispatchOk dispatch b) →
    dispatch nm inp = .error emsg →
    generateLoop calls tt (some dispatch) messages callIdx fuel
      = { answer := .ok ("I encountered an error while searching: "
            ++ ("Tool \x27" ++ nm ++ "\x27 failed: " ++ emsg)),
          callsMade := m + 1,
          callToolsAttached := List.replicate (m + 1) tt,
          dispatchLog := roundsLog calls callIdx m ++ (toolUseLog pre ++ [(nm, inp)]) } := by
  induction m with
  | zero =>
    intro callIdx messages fuel hfuel h pre post id nm inp emsg hstop hdecomp hpre hfail
    obtain ⟨f, rfl⟩ : ∃ f, fuel = f + 1 := ⟨fuel - 1, by omega⟩
    rw [Nat.add_zero] at hstop hdecomp
    have hexec := execute_tools_fail dispatch (calls callIdx) messages pre post
      id nm inp emsg hdecomp hpre hfail
    simp only [generateLoop, hstop, hexec, ne_eq, not_true_eq_false, if_false]
    simp [roundsLog]
  | succ m ih =>
    intro callIdx messages fuel hfuel h pre post id nm inp emsg hstop hdecomp hpre hfail
    obtain ⟨f, rfl⟩ : ∃ f, fuel = f + 1 := ⟨fuel - 1, by omega⟩
    obtain ⟨hstop0, hok0⟩ := h 0 (Nat.succ_pos m)
    rw [Nat.add_zero] at hstop0 hok0
    obtain ⟨newMessages, hexec⟩ :=
      execute_tools_ok dispatch (calls callIdx) messages hok0
    have eidx : callIdx + (m + 1) = callIdx + 1 + m := by omega
    rw [eidx] at hstop hdecomp
    have hrest := ih (callIdx + 1) newMessages f (by omega)
      (fun j hj => by
        have h' := h (j + 1) (Nat.succ_lt_succ hj)
        have e : callIdx + (j + 1) = callIdx + 1 + j := by omega
        rwa [e] at h')
      pre post id nm inp emsg hstop hdecomp hpre hfail
    simp only [generateLoop, hstop0, hexec, hrest, ne_eq, not_true_eq_false,
      if_false]
    simp [GenTrace.mk.injEq, List.replicate_succ, roundsLog, Nat.add_comm]
    rw [Nat.add_comm 1 (m + 1)]
    simp [List.replicate_succ]

/-! ## C3 -/

/-- C3 (corrected): executing `CourseSearchTool` first on a search matching
2 passages and then on a search matching 0 passages does **not** leave the
registry's last-citations query empty — the empty second execution never
reaches `_format_results`, so the first batch of 2 citations survives. -/
theorem C3_counterexample :
    (((CourseSearchTool.execute
        ((CourseSearchTool.execute { store := c3_store, last_sources := [] }
          "q1" none none).1) "q2" none none).1).last_sources
      = [{ text := "CourseA - Lesson 1", link := none },
         { text := "CourseA - Lesson 2", link := none }]) ∧
    (ToolManager.get_last_sources
      { tools := [("search_course_content",
          CourseSearchTool.asRegistered
            ((CourseSearchTool.execute
              ((CourseSearchTool.execute { store := c3_store, last_sources := [] }
                "q1" none none).1) "q2" none none).1))] }
      = [{ text := "CourseA - Lesson 1", link := none },
         { text := "CourseA - Lesson 2", link := none }]) ∧
    ([{ text := "CourseA - Lesson 1", link := none },
      { text := "CourseA - Lesson 2", link := none }] ≠ ([] : List Source)) := by
  refine ⟨rfl, rfl, by decide⟩

/-- C3 (amended): an execution whose search outcome carries passages
replaces the stored batch wholesale — the resulting batch is independent of
whatever was stored before (overwrite, never append or union) — while an
execution whose outcome is an error or carries zero passages leaves the
stored batch untouched; hence the 2-then-0 sequence of the scenario leaves
the first execution's citations in place rather than an empty list. -/
theorem C3_last_sources_overwrite (t : CourseSearchTool) (q : String)
    (cn : Option String) (ln : Option Int) (prior : List Source) :
    (¬ optStrTruthy (t.store.search q cn ln).error →
      ¬ (t.store.search q cn ln).is_empty →
      (CourseSearchTool.execute { t with last_sources := prior } q cn ln).1.last_sources
        = (CourseSearchTool.execute t q cn ln).1.last_sources) ∧
    (optStrTruthy (t.store.search q cn ln).error ∨ (t.store.search q cn ln).is_empty →
      (CourseSearchTool.execute t q cn ln).1.last_sources = t.last_sources) := by
  constructor
  · intro herr hemp
    simp only [CourseSearchTool.execute, CourseSearchTool.format_results]
    rw [if_neg herr, if_neg hemp, if_neg herr, if_neg hemp]
  · rintro (herr | hemp)
    · simp only [CourseSearchTool.execute]
      rw [if_pos herr]
    · simp only [CourseSearchTool.execute]
      by_cases herr : optStrTruthy (t.store.search q cn ln).error
      · rw [if_pos herr]
      · rw [if_neg herr, if_pos hemp]

/-- Witness for C3 (amended): on the concrete scenario store, the
overwriting branch makes the post-execution batch independent of the prior
batch, and the empty second search leaves the batch unchanged. -/
theorem C3_last_sources_overwrite_witness :
    ((CourseSearchTool.execute
        { store := c3_store,
          last_sources := [{ text := "stale", link := none }] } "q1" none none).1.last_sources
      = (CourseSearchTool.execute { store := c3_store, last_sources := [] }
          "q1" none none).1.last_sources) ∧
    ((CourseSearchTool.execute
        { store := c3_store, last_sources := [{ text := "stale", link := none }] }
        "q2" none none).1.last_sources = [{ text := "stale", link := none }]) :=
  ⟨(C3_last_sources_overwrite { store := c3_store, last_sources := [] }
      "q1" none none [{ text := "stale", link := none }]).1 (by decide) (by decide),
   (C3_last_sources_overwrite
      { store := c3_store, last_sources := [{ text := "stale", link := none }] }
      "q2" none none []).2 (Or.inr (by decide))⟩

/-! ## C7 -/

/-- C7 (corrected): with `lesson_number = 0` supplied and an empty outcome,
the returned message is the bare `"No relevant content found."` — the zero
lesson number is falsy in Python's `if lesson_number:` test, so the lesson
qualifier the claim demands is missing. -/
theorem C7_counterexample :
    (CourseSearchTool.execute { store := c7_store, last_sources := [] }
      "q" none (some 0)).2 = "No relevant content found." ∧
    "No relevant content found." ≠ "No relevant content found in lesson 0." := by
  exact ⟨rfl, by decide⟩

/-- C7 (amended): on an outcome with zero passages and no error, `execute`
returns the deterministic message `"No relevant content found"` followed by
the active-filter qualifiers and a period; the course qualifier appears for
every supplied nonempty course name and the lesson qualifier for every
supplied *nonzero* lesson number — a supplied `lesson_number = 0` (like an
empty course name) is falsy and contributes no qualifier. -/
theorem C7_empty_result_message (t : CourseSearchTool) (q : String)
    (cn : Option String) (ln : Option Int)
    (herr : ¬ optStrTruthy (t.store.search q cn ln).error)
    (hemp : (t.store.search q cn ln).is_empty) :
    (CourseSearchTool.execute t q cn ln).2
      = "No relevant content found" ++ filterInfo cn ln ++ "." ∧
    (∀ c n, c ≠ "" → n ≠ 0 →
      filterInfo (some c) (some n)
        = " in course \x27" ++ c ++ "\x27" ++ (" in lesson " ++ toString n)) ∧
    (∀ c, filterInfo c (some 0) = filterInfo c none) ∧
    (∀ l, filterInfo (some "") l = filterInfo none l) := by
  refine ⟨?_, ?_, ?_, ?_⟩
  · simp only [CourseSearchTool.execute]
    rw [if_neg herr, if_pos hemp]
  · intro c n hc hn
    simp [filterInfo, optStrTruthy, optIntTruthy, hc, hn]
  · intro c
    simp [filterInfo, optIntTruthy]
  · intro l
    simp [filterInfo, optStrTruthy]

/-- Witness for C7 (amended): concrete empty search with a nonempty course
name and a nonzero lesson number yields the fully qualified message. -/
theorem C7_empty_result_message_witness :
    (CourseSearchTool.execute { store := c7_store, last_sources := [] }
      "q" (some "X") (some 2)).2
      = "No relevant content found in course \x27X\x27 in lesson 2." := by
  have h := (C7_empty_result_message { store := c7_store, last_sources := [] }
    "q" (some "X") (some 2) (by decide) (by decide)).1
  rw [h]
  rfl

/-! ## C5 -/

/-- C5 (corrected): registering a second tool under a name another
registered tool already declared does not fail — `register_tool` succeeds
and silently replaces the existing registration. -/
theorem C5_counterexample :
    ToolManager.register_tool
      { tools := [("dup", { get_tool_definition := { name := some "dup" },
                            last_sources := none })] }
      { get_tool_definition := { name := some "dup" },
        last_sources := some [{ text := "s", link := none }] }
    = .ok { tools := [("dup", { get_tool_definition := { name := some "dup" },
                                last_sources := some [{ text := "s", link := none }] })] }
    ∧ (Tool.mk { name := some "dup" } none
        ≠ Tool.mk { name := some "dup" } (some [{ text := "s", link := none }])) := by
  constructor
  · rfl
  · decide

/-- C5 (amended): `ToolManager.register_tool` raises exactly when the
tool's definition omits a name (or declares the empty, falsy, name); a
registration under an already-declared name succeeds and silently replaces
the previous tool under that name, leaving every other name's registration
unchanged. -/
theorem C5_register_tool (tm : ToolManager) (tool : Tool) :
    (tool.get_tool_definition.name = none ∨ tool.get_tool_definition.name = some "" →
      tm.register_tool tool = .error "Tool must have a \x27name\x27 in its definition") ∧
    (∀ n, tool.get_tool_definition.name = some n → n ≠ "" →
      tm.register_tool tool = .ok { tools := dictInsert tm.tools n tool } ∧
      dictGet (dictInsert tm.tools n tool) n = some tool ∧
      ∀ k, k ≠ n → dictGet (dictInsert tm.tools n tool) k = dictGet tm.tools k) := by
  constructor
  · rintro (h | h) <;> simp [ToolManager.register_tool, h]
  · intro n hn hne
    refine ⟨by simp [ToolManager.register_tool, hn, hne], dictGet_dictInsert_self _ _ _,
      fun k hk => dictGet_dictInsert_other _ _ _ _ hk⟩

/-- Witness for C5: both branches of `C5_register_tool` at concrete
inputs: a nameless tool is rejected, a named one is stored and retrievable. -/
theorem C5_register_tool_witness :
    ToolManager.register_tool { tools := [] }
      { get_tool_definition := { name := none }, last_sources := none }
      = .error "Tool must have a \x27name\x27 in its definition" ∧
    ToolManager.register_tool { tools := [] }
      { get_tool_definition := { name := some "t" }, last_sources := none }
      = .ok { tools := [("t", { get_tool_definition := { name := some "t" },
                                last_sources := none })] } :=
  ⟨(C5_register_tool { tools := [] } _).1 (Or.inl rfl),
   ((C5_register_tool { tools := [] }
      { get_tool_definition := { name := some "t" }, last_sources := none }).2
      "t" rfl (by decide)).1⟩

/-! ## C6 -/

/-- C6: `ToolManager.get_last_sources` scans the registered tools in order
and *returns* the first nonempty citation batch: whenever the registry
decomposes into tools with empty batches followed by a tool with a nonempty
batch, exactly that tool's batch is returned (so the result is always a
single tool's batch, never a merge of several), and `[]` is returned when
every registered tool's batch is empty (absent `last_sources` counts as
empty). -/
theorem C6_get_last_sources (tm : ToolManager) :
    ((∀ p ∈ tm.tools, p.2.batch = []) → tm.get_last_sources = []) ∧
    (∀ pre p post, tm.tools = pre ++ p :: post →
      (∀ q ∈ pre, q.2.batch = []) → p.2.batch ≠ [] →
      tm.get_last_sources = p.2.batch) := by
  refine ⟨getLastSourcesLoop_all_empty tm.tools, ?_⟩
  intro pre p post heq hpre hne
  rw [ToolManager.get_last_sources, heq]
  exact getLastSourcesLoop_first_nonempty pre p post hpre hne

/-- Witness for C6: on a registry whose first tool holds an empty batch and
whose second holds one citation, the scan returns the second tool's batch;
on a registry whose tools hold only empty or absent batches, it returns
`[]`. -/
theorem C6_get_last_sources_witness :
    ToolManager.get_last_sources
      { tools := [("a", { get_tool_definition := { name := some "a" },
                          last_sources := some [] }),
                  ("b", { get_tool_definition := { name := some "b" },
                          last_sources := some [{ text := "src", link := none }] })] }
      = [{ text := "src", link := none }] ∧
    ToolManager.get_last_sources
      { tools := [("a", { get_tool_definition := { name := some "a" },
                          last_sources := some [] }),
                  ("b", { get_tool_definition := { name := some "b" },
                          last_sources := none })] } = [] :=
  ⟨(C6_get_last_sources
      { tools := [("a", { get_tool_definition := { name := some "a" },
                          last_sources := some [] }),
                  ("b", { get_tool_definition := { name := some "b" },
                          last_sources := some [{ text := "src", link := none }] })] }).2
      [("a", { get_tool_definition := { name := some "a" },
               last_sources := some [] })]
      ("b", { get_tool_definition := { name := some "b" },
              last_sources := some [{ text := "src", link := none }] })
      [] rfl (by decide) (by decide),
   (C6_get_last_sources
      { tools := [("a", { get_tool_definition := { name := some "a" },
                          last_sources := some [] }),
                  ("b", { get_tool_definition := { name := some "b" },
                          last_sources := none })] }).1 (by decide)⟩

/-! ## C9 -/

theorem insertLessonAsc_of_le (x : LessonMeta) (xs : List LessonMeta)
    (h : ∀ y ∈ xs, x.lesson_number.getD 0 ≤ y.lesson_number.getD 0) :
    insertLessonAsc x xs = x :: xs := by
  cases xs with
  | nil => rfl
  | cons y ys => exact if_pos (h y (by simp))

theorem sortLessonsAsc_of_sorted (l : List LessonMeta)
    (h : l.Pairwise (fun a b => a.lesson_number.getD 0 ≤ b.lesson_number.getD 0)) :
    sortLessonsAsc l = l := by
  induction l with
  | nil => rfl
  | cons x xs ih =>
    rcases List.pairwise_cons.mp h with ⟨hx, hxs⟩
    rw [sortLessonsAsc, ih hxs, insertLessonAsc_of_le x xs hx]

/-- C9 (corrected): `_format_course_outline` renders the lesson lines in
the order the lessons appear in the stored metadata, not in ascending
lesson-number order — on a metadata dict listing lesson 2 before lesson 1,
the rendered outline lists "Lesson 2" before "Lesson 1" and differs from
the ascending rendering the claim requires. -/
theorem C9_counterexample :
    (CourseOutlineTool.format_course_outline
      { store := c7_store, last_sources := [] }
      { title := some "T", instructor := some "I", course_link := none,
        lessons := [{ lesson_number := some 2, lesson_title := some "B" },
                    { lesson_number := some 1, lesson_title := some "A" }] }).2
      = "**Course Title:** T\n**Course Instructor:** I\n**Total Lessons:** 2\n\n**Course Outline:**\nLesson 2: B\nLesson 1: A" ∧
    (CourseOutlineTool.format_course_outline
      { store := c7_store, last_sources := [] }
      { title := some "T", instructor := some "I", course_link := none,
        lessons := [{ lesson_number := some 2, lesson_title := some "B" },
                    { lesson_number := some 1, lesson_title := some "A" }] }).2
      ≠ (formatCourseOutlineSpecAscending
          { store := c7_store, last_sources := [] }
          { title := some "T", instructor := some "I", course_link := none,
            lessons := [{ lesson_number := some 2, lesson_title := some "B" },
                        { lesson_number := some 1, lesson_title := some "A" }] }).2 := by
  exact ⟨rfl, by decide⟩

/-- C9 (amended): for every course metadata with a nonempty lesson list,
`_format_course_outline` renders one line per lesson as
"Lesson `<number>`: `<title>`" in the order the lessons appear in the stored
metadata (the code does not sort), records exactly one citation
`{text: title, link}` overwriting any previously stored batch, and its
rendering coincides with the ascending rendering the spec describes exactly
when the metadata is already stored in ascending lesson-number order. -/
theorem C9_format_course_outline (t : CourseOutlineTool) (md : CourseMetadata)
    (hne : md.lessons ≠ []) :
    (t.format_course_outline md).2
      = String.intercalate "\n"
          (["**Course Title:** " ++ md.title.getD "Unknown Course",
            "**Course Instructor:** " ++ md.instructor.getD "Unknown Instructor"] ++
           (if optStrTruthy md.course_link then
             ["**Course Link:** " ++ md.course_link.getD ""] else []) ++
           ["**Total Lessons:** " ++ toString md.lessons.length,
            "\n**Course Outline:**"] ++
           md.lessons.map (fun lesson =>
             "Lesson " ++ (match lesson.lesson_number with
                           | some n => toString n
                           | none => "N/A") ++
             ": " ++ lesson.lesson_title.getD "Untitled Lesson")) ∧
    (t.format_course_outline md).1.last_sources
      = [{ text := md.title.getD "Unknown Course", link := md.course_link }] ∧
    (md.lessons.Pairwise
        (fun a b => a.lesson_number.getD 0 ≤ b.lesson_number.getD 0) →
      (t.format_course_outline md).2 = (formatCourseOutlineSpecAscending t md).2) := by
  refine ⟨?_, rfl, ?_⟩
  · simp only [CourseOutlineTool.format_course_outline, if_pos hne]
    simp [List.append_assoc]
  · intro hsorted
    unfold formatCourseOutlineSpecAscending
    rw [sortLessonsAsc_of_sorted md.lessons hsorted]

/-- Witness for C9 (amended): on a concrete metadata dict whose two lessons
are stored *descending* (2 before 1), the rendering keeps the stored order
and the single citation overwrites the stale batch; on an ascending
metadata dict, the rendering coincides with the spec's ascending one. -/
theorem C9_format_course_outline_witness :
    (CourseOutlineTool.format_course_outline
      { store := c7_store, last_sources := [{ text := "stale", link := none }] }
      { title := some "T", instructor := some "I", course_link := some "L",
        lessons := [{ lesson_number := some 2, lesson_title := some "B" },
                    { lesson_number := some 1, lesson_title := some "A" }] }).2
      = String.intercalate "\n"
          ["**Course Title:** T", "**Course Instructor:** I",
           "**Course Link:** L", "**Total Lessons:** 2",
           "\n**Course Outline:**", "Lesson 2: B", "Lesson 1: A"] ∧
    (CourseOutlineTool.format_course_outline
      { store := c7_store, last_sources := [{ text := "stale", link := none }] }
      { title := some "T", instructor := some "I", course_link := some "L",
        lessons := [{ lesson_number := some 2, lesson_title := some "B" },
                    { lesson_number := some 1, lesson_title := some "A" }] }).1.last_sources
      = [{ text := "T", link := some "L" }] ∧
    (CourseOutlineTool.format_course_outline
      { store := c7_store, last_sources := [] }
      { title := some "T", instructor := some "I", course_link := some "L",
        lessons := [{ lesson_number := some 1, lesson_title := some "A" },
                    { lesson_number := some 2, lesson_title := some "B" }] }).2
      = (formatCourseOutlineSpecAscending
          { store := c7_store, last_sources := [] }
          { title := some "T", instructor := some "I", course_link := some "L",
            lessons := [{ lesson_number := some 1, lesson_title := some "A" },
                        { lesson_number := some 2, lesson_title := some "B" }] }).2 := by
  have hdesc := C9_format_course_outline
    { store := c7_store, last_sources := [{ text := "stale", link := none }] }
    { title := some "T", instructor := some "I", course_link := some "L",
      lessons := [{ lesson_number := some 2, lesson_title := some "B" },
                  { lesson_number := some 1, lesson_title := some "A" }] }
    (by decide)
  have hasc := C9_format_course_outline
    { store := c7_store, last_sources := [] }
    { title := some "T", instructor := some "I", course_link := some "L",
      lessons := [{ lesson_number := some 1, lesson_title := some "A" },
                  { lesson_number := some 2, lesson_title := some "B" }] }
    (by decide)
  exact ⟨by rw [hdesc.1]; rfl, hdesc.2.1, hasc.2.2 (by decide)⟩

/-! ## C1 -/

/-- The loop fuel of a nonnegative round budget given as a `Nat`. -/
theorem toNat_max_natCast (b : Nat) : (max 0 (b : Int)).toNat = b := by omega

/-- C1: for every round budget `b ≥ 1`, when tool schemas and a dispatcher
are supplied and every call up to and including round `b` returns stop
reason `"tool_use"` with a batch whose invocations all dispatch
successfully, `generate_response` makes exactly `b + 1` model calls, only
the final call carries no tool schemas, and the returned answer is the text
of that final call. -/
theorem C1_full_tool_rounds (calls : Nat → ModelResponse) (query : String)
    (hist : Option String) (tools : Option (List ToolDef))
    (dispatch : Dispatcher) (b : Nat) (hb : 1 ≤ b)
    (htools : toolsTruthy tools = true)
    (hrounds : ∀ j < b, (calls j).stop_reason = "tool_use" ∧
      ∀ blk ∈ (calls j).content, blockDispatchOk dispatch blk)
    (t : String) (rest : List ContentBlock)
    (hfinal : (calls b).content = .text t :: rest) :
    (generate_response calls query hist tools (some dispatch) (b : Int)).callsMade
      = b + 1 ∧
    (generate_response calls query hist tools (some dispatch) (b : Int)).callToolsAttached
      = List.replicate b true ++ [false] ∧
    (generate_response calls query hist tools (some dispatch) (b : Int)).answer
      = .ok t := by
  have hloop := generateLoop_rounds_ok calls (toolsTruthy tools) dispatch b 0
    [{ role := "user", content := .text query }]
    (fun j hj => by simpa using hrounds j hj)
  unfold generate_response
  rw [toNat_max_natCast, hloop]
  simp [htools, hfinal, firstContentText, ContentBlock.textAttr]

/-- Witness for C1: budget 1, one tool round then a final text answer:
2 calls, schemas on the first only, final text returned. -/
theorem C1_full_tool_rounds_witness :
    (generate_response
      (fun i => if i = 0 then
        { stop_reason := "tool_use",
          content := [.toolUse "id1" "search_course_content" [("query", "x")]] }
      else { stop_reason := "end_turn", content := [.text "final answer"] })
      "q" none (some [{ name := some "search_course_content" }])
      (some fun _ _ => .ok "result") ((1 : Nat) : Int)).callsMade = 2 ∧
    (generate_response
      (fun i => if i = 0 then
        { stop_reason := "tool_use",
          content := [.toolUse "id1" "search_course_content" [("query", "x")]] }
      else { stop_reason := "end_turn", content := [.text "final answer"] })
      "q" none (some [{ name := some "search_course_content" }])
      (some fun _ _ => .ok "result") ((1 : Nat) : Int)).callToolsAttached = [true, false] ∧
    (generate_response
      (fun i => if i = 0 then
        { stop_reason := "tool_use",
          content := [.toolUse "id1" "search_course_content" [("query", "x")]] }
      else { stop_reason := "end_turn", content := [.text "final answer"] })
      "q" none (some [{ name := some "search_course_content" }])
      (some fun _ _ => .ok "result") ((1 : Nat) : Int)).answer = .ok "final answer" := by
  have h := C1_full_tool_rounds
    (fun i => if i = 0 then
      { stop_reason := "tool_use",
        content := [.toolUse "id1" "search_course_content" [("query", "x")]] }
    else { stop_reason := "end_turn", content := [.text "final answer"] })
    "q" none (some [{ name := some "search_course_content" }])
    (fun _ _ => .ok "result") 1 (by decide) (by decide)
    (by decide) "final answer" [] (by decide)
  exact ⟨h.1, by rw [h.2.1]; rfl, h.2.2⟩

/-! ## C2 -/

/-- C2: if on round `k ≤ b` (with `k ≥ 1`) some invocation of the model's
batch raises during dispatch — after every invocation before it in the
batch dispatched successfully and all earlier rounds succeeded in full —
then exactly `k` model calls have occurred, the dispatch log stops at the
failing invocation (nothing later in the batch, and no later round, is
dispatched), no exception escapes, and the returned text is the apology
string embedding the wrapped exception message. -/
theorem C2_dispatch_failure (calls : Nat → ModelResponse) (query : String)
    (hist : Option String) (tools : Option (List ToolDef))
    (dispatch : Dispatcher) (b k : Nat) (hk1 : 1 ≤ k) (hkb : k ≤ b)
    (hrounds : ∀ j < k - 1, (calls j).stop_reason = "tool_use" ∧
      ∀ blk ∈ (calls j).content, blockDispatchOk dispatch blk)
    (pre post : List ContentBlock) (id nm : String) (inp : ToolArgs)
    (emsg : String)
    (hstop : (calls (k - 1)).stop_reason = "tool_use")
    (hdecomp : (calls (k - 1)).content = pre ++ .toolUse id nm inp :: post)
    (hpre : ∀ blk ∈ pre, blockDispatchOk dispatch blk)
    (hfail : dispatch nm inp = .error emsg) :
    (generate_response calls query hist tools (some dispatch) (b : Int)).callsMade
      = k ∧
    (generate_response calls query hist tools (some dispatch) (b : Int)).answer
      = .ok ("I encountered an error while searching: "
          ++ ("Tool \x27" ++ nm ++ "\x27 failed: " ++ emsg)) ∧
    (generate_response calls query hist tools (some dispatch) (b : Int)).dispatchLog
      = roundsLog calls 0 (k - 1) ++ (toolUseLog pre ++ [(nm, inp)]) := by
  have hloop := generateLoop_fail calls (toolsTruthy tools) dispatch (k - 1) 0
    [{ role := "user", content := .text query }] b (by omega)
    (fun j hj => by simpa using hrounds j hj)
    pre post id nm inp emsg (by simpa using hstop) (by simpa using hdecomp)
    hpre hfail
  unfold generate_response
  rw [toNat_max_natCast, hloop]
  refine ⟨by simp; omega, rfl, rfl⟩

/-- Witness for C2: budget 2, failure in the first round's only invocation:
one call, the apology text, one logged dispatch attempt. -/
theorem C2_dispatch_failure_witness :
    (generate_response
      (fun _ =>
        { stop_reason := "tool_use",
          content := [.toolUse "id1" "search_course_content" [("query", "x")]] })
      "q" none (some [{ name := some "search_course_content" }])
      (some fun _ _ => .error "boom") ((2 : Nat) : Int)).callsMade = 1 ∧
    (generate_response
      (fun _ =>
        { stop_reason := "tool_use",
          content := [.toolUse "id1" "search_course_content" [("query", "x")]] })
      "q" none (some [{ name := some "search_course_content" }])
      (some fun _ _ => .error "boom") ((2 : Nat) : Int)).answer
      = .ok ("I encountered an error while searching: "
          ++ ("Tool \x27search_course_content\x27 failed: " ++ "boom")) ∧
    (generate_response
      (fun _ =>
        { stop_reason := "tool_use",
          content := [.toolUse "id1" "search_course_content" [("query", "x")]] })
      "q" none (some [{ name := some "search_course_content" }])
      (some fun _ _ => .error "boom") ((2 : Nat) : Int)).dispatchLog
      = [("search_course_content", [("query", "x")])] := by
  have h := C2_dispatch_failure
    (fun _ =>
      { stop_reason := "tool_use",
        content := [.toolUse "id1" "search_course_content" [("query", "x")]] })
    "q" none (some [{ name := some "search_course_content" }])
    (fun _ _ => .error "boom") 2 1 (by decide) (by decide)
    (by decide) [] [] "id1" "search_course_content" [("query", "x")] "boom"
    (by decide) (by decide) (by decide) (by decide)
  exact ⟨h.1, h.2.1, by rw [h.2.2]; rfl⟩

/-! ## C4 -/

/-- C4: for every `max_rounds ≤ 0`, `generate_response` still makes exactly
one model call, that call carries no tool schemas, and that call's text is
returned. -/
theorem C4_nonpositive_budget (calls : Nat → ModelResponse) (query : String)
    (hist : Option String) (tools : Option (List ToolDef))
    (tool_manager : Option Dispatcher) (mr : Int) (hmr : mr ≤ 0)
    (t : String) (rest : List ContentBlock)
    (hfinal : (calls 0).content = .text t :: rest) :
    (generate_response calls query hist tools tool_manager mr).callsMade = 1 ∧
    (generate_response calls query hist tools tool_manager mr).callToolsAttached
      = [false] ∧
    (generate_response calls query hist tools tool_manager mr).answer = .ok t := by
  have hfuel : (max 0 mr).toNat = 0 := by omega
  unfold generate_response
  rw [hfuel]
  simp [generateLoop, hfinal, firstContentText, ContentBlock.textAttr]

/-- Witness for C4: budget `-3`, a response with text: one tool-less call,
text returned. -/
theorem C4_nonpositive_budget_witness :
    (generate_response
      (fun _ => { stop_reason := "end_turn", content := [.text "hello"] })
      "q" none (some [{ name := some "search_course_content" }])
      none (-3 : Int)).callsMade = 1 ∧
    (generate_response
      (fun _ => { stop_reason := "end_turn", content := [.text "hello"] })
      "q" none (some [{ name := some "search_course_content" }])
      none (-3 : Int)).callToolsAttached = [false] ∧
    (generate_response
      (fun _ => { stop_reason := "end_turn", content := [.text "hello"] })
      "q" none (some [{ name := some "search_course_content" }])
      none (-3 : Int)).answer = .ok "hello" :=
  C4_nonpositive_budget
    (fun _ => { stop_reason := "end_turn", content := [.text "hello"] })
    "q" none (some [{ name := some "search_course_content" }]) none (-3)
    (by decide) "hello" [] (by decide)

/-! ## C8 -/

/-- C8 (corrected): with stop reason `"tool_use"` and no dispatcher, the
code does **not** always return without raising — when the response's
content is a lone tool-use block (no text anywhere), the guarded branch
still evaluates `response.content[0].text` and raises `AttributeError`
instead of returning the `"no response available"` fallback; and the
fallback actually returned for empty content is capitalized
`"No response available"`. -/
theorem C8_counterexample :
    (generate_response
      (fun _ =>
        { stop_reason := "tool_use",
          content := [.toolUse "id1" "search_course_content" [("query", "x")]] })
      "q" none (some [{ name := some "search_course_content" }])
      none (2 : Int)).answer = .error .attributeError ∧
    (generate_response
      (fun _ => { stop_reason := "tool_use", content := [] })
      "q" none (some [{ name := some "search_course_content" }])
      none (2 : Int)).answer = .ok "No response available" ∧
    (Except.error .attributeError ≠ (.ok "no response available" : Except PyErr String)) ∧
    ("No response available" ≠ "no response available") := by
  exact ⟨rfl, rfl, by decide, by decide⟩

/-- C8 (amended): with stop reason `"tool_use"`, no dispatcher and a
positive round budget, `generate_response` makes exactly one model call and
returns the first content block's text when the content is nonempty and its
first block carries text, returns the fixed fallback
`"No response available"` when the content is empty, and raises
`AttributeError` when the nonempty content's first block carries no text. -/
theorem C8_no_dispatcher (calls : Nat → ModelResponse) (query : String)
    (hist : Option String) (tools : Option (List ToolDef)) (mr : Int)
    (hmr : 1 ≤ mr) (hstop : (calls 0).stop_reason = "tool_use") :
    (generate_response calls query hist tools none mr).answer
      = (match (calls 0).content with
         | [] => .ok "No response available"
         | blk :: _ => blk.textAttr) ∧
    (generate_response calls query hist tools none mr).callsMade = 1 := by
  obtain ⟨f, hf⟩ : ∃ f, (max 0 mr).toNat = f + 1 :=
    ⟨(max 0 mr).toNat - 1, by omega⟩
  unfold generate_response
  rw [hf]
  simp [generateLoop, hstop]

/-- Witness for C8 (amended): a leading text block is returned as the best
available fragment after exactly one call. -/
theorem C8_no_dispatcher_witness :
    (generate_response
      (fun _ =>
        { stop_reason := "tool_use",
          content := [.text "frag",
                      .toolUse "id1" "search_course_content" [("query", "x")]] })
      "q" none (some [{ name := some "search_course_content" }])
      none (2 : Int)).answer = .ok "frag" ∧
    (generate_response
      (fun _ =>
        { stop_reason := "tool_use",
          content := [.text "frag",
                      .toolUse "id1" "search_course_content" [("query", "x")]] })
      "q" none (some [{ name := some "search_course_content" }])
      none (2 : Int)).callsMade = 1 := by
  have h := C8_no_dispatcher
    (fun _ =>
      { stop_reason := "tool_use",
        content := [.text "frag",
                    .toolUse "id1" "search_course_content" [("query", "x")]] })
    "q" none (some [{ name := some "search_course_content" }]) 2
    (by decide) (by decide)
  exact ⟨by rw [h.1]; rfl, h.2⟩

/-! ## C10 -/

/-- C10: a model response whose stop reason is not `"tool_use"` but whose
content is empty, or whose first block carries no text, makes
`generate_response` raise instead of returning a fallback — the unguarded
`response.content[0].text` access occurs both on the direct-answer path and
on the forced final tool-less call after the rounds are exhausted
(`firstContentText` raises `IndexError` on `[]` and `AttributeError` on a
leading tool-use block) — while the no-dispatcher branch alone guards
against empty content with the `"No response available"` fallback. -/
theorem C10_unguarded_content_access :
    (∀ (calls : Nat → ModelResponse) (query : String) (hist : Option String)
       (tools : Option (List ToolDef)) (tool_manager : Option Dispatcher)
       (mr : Int), 1 ≤ mr →
      (calls 0).stop_reason ≠ "tool_use" →
      (generate_response calls query hist tools tool_manager mr).answer
        = firstContentText (calls 0).content) ∧
    (∀ (calls : Nat → ModelResponse) (query : String) (hist : Option String)
       (tools : Option (List ToolDef)) (dispatch : Dispatcher) (b : Nat),
      (∀ j < b, (calls j).stop_reason = "tool_use" ∧
        ∀ blk ∈ (calls j).content, blockDispatchOk dispatch blk) →
      (generate_response calls query hist tools (some dispatch) (b : Int)).answer
        = firstContentText (calls b).content) ∧
    (firstContentText [] = .error .indexError) ∧
    (∀ (id nm : String) (inp : ToolArgs) (rest : List ContentBlock),
      firstContentText (.toolUse id nm inp :: rest) = .error .attributeError) ∧
    (∀ (calls : Nat → ModelResponse) (query : String) (hist : Option String)
       (tools : Option (List ToolDef)) (mr : Int), 1 ≤ mr →
      (calls 0).stop_reason = "tool_use" → (calls 0).content = [] →
      (generate_response calls query hist tools none mr).answer
        = .ok "No response available") := by
  refine ⟨?_, ?_, rfl, fun id nm inp rest => rfl, ?_⟩
  · intro calls query hist tools tool_manager mr hmr hstop
    obtain ⟨f, hf⟩ : ∃ f, (max 0 mr).toNat = f + 1 :=
      ⟨(max 0 mr).toNat - 1, by omega⟩
    unfold generate_response
    rw [hf]
    simp [generateLoop, hstop]
  · intro calls query hist tools dispatch b hrounds
    have hloop := generateLoop_rounds_ok calls (toolsTruthy tools) dispatch b 0
      [{ role := "user", content := .text query }]
      (fun j hj => by simpa using hrounds j hj)
    unfold generate_response
    rw [toNat_max_natCast, hloop]
    simp
  · intro calls query hist tools mr hmr hstop hempty
    obtain ⟨f, hf⟩ : ∃ f, (max 0 mr).toNat = f + 1 :=
      ⟨(max 0 mr).toNat - 1, by omega⟩
    unfold generate_response
    rw [hf]
    simp [generateLoop, hstop, hempty]

/-- Witness for C10: an "ended normally" response with empty content makes
the run raise `IndexError`; with a leading tool-use block it raises
`AttributeError`; the no-dispatcher branch on empty content returns the
fallback instead. -/
theorem C10_unguarded_content_access_witness :
    (generate_response
      (fun _ => { stop_reason := "end_turn", content := [] })
      "q" none none none (2 : Int)).answer = .error .indexError ∧
    (generate_response
      (fun _ =>
        { stop_reason := "end_turn",
          content := [.toolUse "id1" "search_course_content" [("query", "x")]] })
      "q" none none none (2 : Int)).answer = .error .attributeError ∧
    (generate_response
      (fun _ => { stop_reason := "tool_use", content := [] })
      "q" none none none (2 : Int)).answer = .ok "No response available" := by
  refine ⟨?_, ?_, ?_⟩
  · have h := C10_unguarded_content_access.1
      (fun _ => { stop_reason := "end_turn", content := [] })
      "q" none none none 2 (by decide) (by decide)
    rw [h]
    rfl
  · have h := C10_unguarded_content_access.1
      (fun _ =>
        { stop_reason := "end_turn",
          content := [.toolUse "id1" "search_course_content" [("query", "x")]] })
      "q" none none none 2 (by decide) (by decide)
    rw [h]
    rfl
  · exact C10_unguarded_content_access.2.2.2.2
      (fun _ => { stop_reason := "tool_use", content := [] })
      "q" none none 2 (by decide) rfl rfl
